import Mathlib

/-!
Shallow embedding of the two demonstration programs of this repository:
`src/memory_example.cpp` (a heap-leak and uninitialized-read demo) and
`src/profiling_example.cpp` (a three-tier CPU workload demo).

The memory demo is modelled with an explicit heap (a list of blocks, the
address of a block being its index) and an event trace recording
allocations, releases and console lines.  Indeterminate (uninitialized)
contents are supplied by an environment: the scalar read in the branch and
the initial contents of each `new int[n]` allocation are parameters, and
every theorem quantifies over them.

The profiling demo is modelled with an abstract field of double values
(`FloatModel`): the four transcendental functions, `sqrt`, `pow`, the
int-to-double cast and the truncating long-long cast are opaque operations,
so every theorem holds for any actual floating-point behaviour.  C++
`for (int i = a; i < b; ++i)` loops are embedded by `cppFor`, which runs
the body `(b - a).toNat` times with ascending integer index.  Calls,
`log` arguments, sleeps and console lines are recorded in an event trace;
environment-dependent behaviour (the actual duration slept, the elapsed
time printed by `main`) comes from a `ProfEnv` parameter.
-/

/-- One iteration-counting interpreter for a C++ ascending `for` loop body:
runs `body` on indices `i, i+1, ...` for `m` steps, threading the state. -/
def cppForGo {σ : Type} (body : Int → σ → σ) : Nat → Int → σ → σ
  | 0, _, s => s
  | m + 1, i, s => cppForGo body m (i + 1) (body i s)

/-- Embedding of `for (int i = start; i < stop; ++i) body`: the body runs
`(stop - start).toNat` times, with index ascending from `start`. -/
def cppFor {σ : Type} (start stop : Int) (body : Int → σ → σ) (s : σ) : σ :=
  cppForGo body (stop - start).toNat start s

namespace MemoryExample

/-- A heap block: its size in ints, its contents, and whether it has been
released.  Contents are total functions so that indeterminate cells simply
keep the environment-supplied initial value. -/
structure Block where
  size : Nat
  data : Nat → Int
  freed : Bool

instance : Inhabited Block := ⟨⟨0, fun _ => 0, false⟩⟩

/-- The heap: a list of blocks, a block's address being its index. -/
abbrev Heap := List Block

/-- A console line of `memory_example.cpp`. -/
inductive OutLine where
  | startBanner
  | leakAddr (addr : Nat)
  | uninitPositive
  | uninitNotPositive
  | indexOne (v : Int)
  | finishBanner
deriving DecidableEq

/-- An observable event of the memory demo: a console line, an allocation
(`new int[size]` at `addr`) or a release (`delete[]` of `addr`). -/
inductive MEvent where
  | line (l : OutLine)
  | alloc (addr size : Nat)
  | free (addr : Nat)
deriving DecidableEq

/-- Embedding of `new int[size]`: appends a fresh block whose indeterminate initial
contents are `init`; returns its address. -/
def allocArr (h : Heap) (size : Nat) (init : Nat → Int) : Nat × Heap :=
  (h.length, h ++ [⟨size, init, false⟩])

/-- Write `h[addr][idx] = v`. -/
def writeAt (h : Heap) (addr idx : Nat) (v : Int) : Heap :=
  match h.get? addr with
  | some b => h.set addr ⟨b.size, fun n => if n = idx then v else b.data n, b.freed⟩
  | none => h

/-- Read `h[addr][idx]`. -/
def readAt (h : Heap) (addr idx : Nat) : Int :=
  (h.getD addr default).data idx

/-- Embedding of `delete[] addr`: marks the block released. -/
def freeArr (h : Heap) (addr : Nat) : Heap :=
  match h.get? addr with
  | some b => h.set addr ⟨b.size, b.data, true⟩
  | none => h

/-- Embedding of `cause_leak` (src/memory_example.cpp:4-10): allocates `new int[10]`,
writes 1 to index 0, prints the address, never releases. -/
def cause_leak (init10 : Nat → Int) (h : Heap) : Heap × List MEvent :=
  let a := allocArr h 10 init10
  let h1 := writeAt a.2 a.1 0 1
  (h1, [MEvent.alloc a.1 10, MEvent.line (OutLine.leakAddr a.1)])

/-- Embedding of `use_uninitialized_memory` (src/memory_example.cpp:12-32): branches on
the indeterminate scalar `uval` and prints one of two messages, allocates
`new int[5]` with indeterminate contents `init5`, writes 100 to index 0,
prints the (uninitialized) value at index 1, releases the array. -/
def use_uninitialized_memory (uval : Int) (init5 : Nat → Int) (h : Heap) :
    Heap × List MEvent :=
  let branch := if uval > 0 then OutLine.uninitPositive else OutLine.uninitNotPositive
  let a := allocArr h 5 init5
  let h1 := writeAt a.2 a.1 0 100
  let v := readAt h1 a.1 1
  let h2 := freeArr h1 a.1
  (h2, [MEvent.line branch, MEvent.alloc a.1 5,
        MEvent.line (OutLine.indexOne v), MEvent.free a.1])

/-- The environment of one run: the indeterminate scalar and the
indeterminate initial contents of the two allocations. -/
structure MemEnv where
  uval : Int
  init10 : Nat → Int
  init5 : Nat → Int

/-- Embedding of `main` (src/memory_example.cpp:34-42): start banner, `cause_leak`,
`use_uninitialized_memory`, finish banner, `return 0`.  Result: final
heap, full event trace, exit code. -/
def main (env : MemEnv) : Heap × List MEvent × Int :=
  let r1 := cause_leak env.init10 []
  let r2 := use_uninitialized_memory env.uval env.init5 r1.1
  (r2.1,
   MEvent.line OutLine.startBanner :: (r1.2 ++ r2.2 ++ [MEvent.line OutLine.finishBanner]),
   0)

/-- Recognizes the two branch-outcome console lines. -/
def isBranchLine : MEvent → Bool
  | MEvent.line OutLine.uninitPositive => true
  | MEvent.line OutLine.uninitNotPositive => true
  | _ => false

/-- Recognizes the index-1 report console line. -/
def isIndexLine : MEvent → Bool
  | MEvent.line (OutLine.indexOne _) => true
  | _ => false

end MemoryExample

namespace ProfilingExample

/-- An abstract model of IEEE-double behaviour: a carrier `D` for double
values, the arithmetic and library functions `profiling_example.cpp`
applies to them, the `int`-to-`double` cast `ofInt`, the truncating
`long long` cast `toLong`, and the two double literals appearing in the
source.  Every theorem about the profiling demo holds for an arbitrary
instance, so nothing depends on actual floating-point values. -/
structure FloatModel where
  D : Type
  zero : D
  add : D → D → D
  mul : D → D → D
  ofInt : Int → D
  sqrtD : D → D
  powD : D → D → D
  sinD : D → D
  cosD : D → D
  logD : D → D
  toLong : D → Int
  lit10001 : D
  lit1 : D

/-- The run environment: the actual duration slept by a
`sleep_for` request, and the elapsed milliseconds the entry point
measures.  Only the event trace may depend on it, never a numeric
result. -/
structure ProfEnv where
  sleepDur : Int → Nat
  elapsed : Nat

/-- An observable event of the profiling demo: a tier banner, a call into
one of the three tiers, a `log` library call with its (integer-valued)
argument, a sleep request with the requested ms and the actual duration,
or the final elapsed-time line. -/
inductive PEvent where
  | startIntensive
  | callIntensive (n : Int)
  | finishIntensive (result : Int)
  | startModerate
  | callModerate (base reps : Int)
  | finishModerate
  | startSimple
  | callSimple (id : Int)
  | finishSimple
  | logCall (arg : Int)
  | sleep (ms : Int) (actual : Nat)
  | totalLine (ms : Nat)
deriving DecidableEq

/-- One inner-loop term of `intensive_computation`
(src/profiling_example.cpp:12):
`static_cast<long long>(std::sqrt(static_cast<double>(j) * i) + std::pow(1.0001, j))`. -/
def intensiveTerm (F : FloatModel) (i j : Int) : Int :=
  F.toLong (F.add (F.sqrtD (F.mul (F.ofInt j) (F.ofInt i))) (F.powD F.lit10001 (F.ofInt j)))

/-- Body of the inner `for (int j = 1; j < 2000; ++j)` loop of
`intensive_computation`: `sum += term`. -/
def intInnerBody (F : FloatModel) (i : Int) (j : Int) (sum : Int) : Int :=
  sum + intensiveTerm F i j

/-- Body of the outer `for (int i = 0; i < iterations; ++i)` loop of
`intensive_computation`. -/
def intOuterBody (F : FloatModel) (i : Int) (sum : Int) : Int :=
  cppFor 1 2000 (intInnerBody F i) sum

/-- Embedding of `intensive_computation` (src/profiling_example.cpp:8-19): the nested
accumulation loops, then `if (iterations < 10)` a sleep of
`50 * iterations` ms.  Returns the `long long` sum and the event trace. -/
def intensive_computation (F : FloatModel) (env : ProfEnv) (iterations : Int) :
    Int × List PEvent :=
  (cppFor 0 iterations (intOuterBody F) 0,
   if iterations < 10 then
     [PEvent.sleep (50 * iterations) (env.sleepDur (50 * iterations))]
   else [])

/-- Value part of the inner `for (int k = 0; k < 100; ++k)` body of
`moderate_work`: `result += std::log(static_cast<double>(k + base + 1))`. -/
def modInnerVal (F : FloatModel) (base : Int) (k : Int) (v : F.D) : F.D :=
  F.add v (F.logD (F.ofInt (k + base + 1)))

/-- Inner-loop body of `moderate_work` on (value, trace) state; the `log`
call is recorded in the trace. -/
def modInnerBody (F : FloatModel) (base : Int) (k : Int) (st : F.D × List PEvent) :
    F.D × List PEvent :=
  (modInnerVal F base k st.1, st.2 ++ [PEvent.logCall (k + base + 1)])

/-- Value part of the outer `for (int i = 0; i < repetitions; ++i)` body of
`moderate_work`: `result += std::sin(base + i) * std::cos(base - i)`, then
the 100-step `log` loop. -/
def modOuterVal (F : FloatModel) (base : Int) (i : Int) (v : F.D) : F.D :=
  cppFor 0 100 (modInnerVal F base)
    (F.add v (F.mul (F.sinD (F.ofInt (base + i))) (F.cosD (F.ofInt (base - i)))))

/-- Outer-loop body of `moderate_work` on (value, trace) state. -/
def modOuterBody (F : FloatModel) (base : Int) (i : Int) (st : F.D × List PEvent) :
    F.D × List PEvent :=
  cppFor 0 100 (modInnerBody F base)
    (F.add st.1 (F.mul (F.sinD (F.ofInt (base + i))) (F.cosD (F.ofInt (base - i)))), st.2)

/-- Embedding of `moderate_work` (src/profiling_example.cpp:22-31): the two nested
accumulation loops starting from `result = 0.0`.  Returns the double
total and the event trace of its `log` calls. -/
def moderate_work (F : FloatModel) (base repetitions : Int) : F.D × List PEvent :=
  cppFor 0 repetitions (modOuterBody F base) (F.zero, [])

/-- The value `simple_task` (src/profiling_example.cpp:34-41) computes and
discards: `std::sqrt(static_cast<double>(id) + 1.0)`. -/
def simple_task_val (F : FloatModel) (id : Int) : F.D :=
  F.sqrtD (F.add (F.ofInt id) F.lit1)

/-- Embedding of `simple_task`: computes `simple_task_val` and discards it; its only
print is commented out in the source, so it emits no events. -/
def simple_task (F : FloatModel) (id : Int) : List PEvent :=
  let _ := simple_task_val F id
  []

/-- Embedding of `run_simulation` (src/profiling_example.cpp:44-63): intensive tier once
with argument 200, moderate tier 50 times with base `i * 10` and 100
repetitions, simple tier 1000 times, each tier between its two banners.
The intermediate-result prints are commented out in the source and emit
nothing. -/
def run_simulation (F : FloatModel) (env : ProfEnv) : List PEvent :=
  let ic := intensive_computation F env 200
  let tr1 := [PEvent.startIntensive, PEvent.callIntensive 200] ++ ic.2 ++
      [PEvent.finishIntensive ic.1, PEvent.startModerate]
  let tr2 := cppFor 0 50
      (fun i tr => tr ++ (PEvent.callModerate (i * 10) 100 :: (moderate_work F (i * 10) 100).2))
      tr1
  let tr3 := cppFor 0 1000
      (fun i tr => tr ++ (PEvent.callSimple i :: simple_task F i))
      (tr2 ++ [PEvent.finishModerate, PEvent.startSimple])
  tr3 ++ [PEvent.finishSimple]

/-- Embedding of `main` (src/profiling_example.cpp:65-75): times `run_simulation`,
prints the elapsed milliseconds, returns 0. -/
def main (F : FloatModel) (env : ProfEnv) : List PEvent × Int :=
  (run_simulation F env ++ [PEvent.totalLine env.elapsed], 0)

/-- Recognizes tier-call events. -/
def isCall : PEvent → Bool
  | PEvent.callIntensive _ => true
  | PEvent.callModerate _ _ => true
  | PEvent.callSimple _ => true
  | _ => false

/-- Recognizes console-output events (banners and the elapsed-time line). -/
def isPrint : PEvent → Bool
  | PEvent.startIntensive => true
  | PEvent.finishIntensive _ => true
  | PEvent.startModerate => true
  | PEvent.finishModerate => true
  | PEvent.startSimple => true
  | PEvent.finishSimple => true
  | PEvent.totalLine _ => true
  | _ => false

/-- Recognizes `log`-call events. -/
def isLog : PEvent → Bool
  | PEvent.logCall _ => true
  | _ => false

/-- The argument of a `log`-call event (1 on any other event). -/
def logArg : PEvent → Int
  | PEvent.logCall a => a
  | _ => 1

/-- The trace of one iteration of the moderate tier: its 100 `log` calls. -/
def modTrace100 (base : Int) : List PEvent :=
  (List.range 100).map fun (k : Nat) => PEvent.logCall ((k : Int) + base + 1)

/-- The trace segment one moderate-tier loop iteration of `run_simulation`
contributes: the call event followed by the 100 × 100 `log` calls of
`moderate_work base 100`. -/
def modSeg (base : Int) : List PEvent :=
  PEvent.callModerate base 100 ::
    ((List.range 100).map fun _ => modTrace100 base).flatten

/-- Spec-side description of `moderate_work`, following the specification
text: for each of `reps` iterations `i`, add `sin(base+i) * cos(base-i)`
to a running total, then add `log(k+base+1)` for `k` in `0..99` into the
same total, starting from zero. -/
def moderate_total (F : FloatModel) (base : Int) (reps : Nat) : F.D :=
  (List.range reps).foldl
    (fun total (i : Nat) =>
      (List.range 100).foldl
        (fun total (k : Nat) => F.add total (F.logD (F.ofInt ((k : Int) + base + 1))))
        (F.add total (F.mul (F.sinD (F.ofInt (base + (i : Int))))
                            (F.cosD (F.ofInt (base - (i : Int)))))))
    F.zero

/-- A trivial float model used by concrete witnesses. -/
def trivModel : FloatModel where
  D := Unit
  zero := ()
  add := fun _ _ => ()
  mul := fun _ _ => ()
  ofInt := fun _ => ()
  sqrtD := fun _ => ()
  powD := fun _ _ => ()
  sinD := fun _ => ()
  cosD := fun _ => ()
  logD := fun _ => ()
  toLong := fun _ => 0
  lit10001 := ()
  lit1 := ()

/-- A concrete environment used by witnesses. -/
def trivEnv : ProfEnv where
  sleepDur := fun _ => 0
  elapsed := 0

/-- A second concrete environment, with different sleep behaviour, used by
witnesses of environment-independence. -/
def altEnv : ProfEnv where
  sleepDur := fun _ => 7
  elapsed := 42

end ProfilingExample

/-! ## Generic lemmas about the loop interpreter -/

theorem mapCongr {α β : Type} (f g : α → β) :
    ∀ l : List α, (∀ x ∈ l, f x = g x) → l.map f = l.map g := by
  intro l
  induction l with
  | nil => intro _; rfl
  | cons a l ih =>
      intro h
      simp only [List.map_cons]
      rw [h a (by simp), ih (fun x hx => h x (by simp [hx]))]

theorem foldlCongr {σ α : Type} (f g : σ → α → σ) :
    ∀ (l : List α) (s : σ), (∀ s x, x ∈ l → f s x = g s x) → l.foldl f s = l.foldl g s := by
  intro l
  induction l with
  | nil => intro s _; rfl
  | cons a l ih =>
      intro s h
      simp only [List.foldl_cons]
      rw [h s a (by simp), ih _ (fun s x hx => h s x (by simp [hx]))]

theorem range_map_shift {β : Type} (gen : Int → β) (m : Nat) (i : Int) :
    (List.range (m + 1)).map (fun (k : Nat) => gen (i + (k : Int)))
      = gen i :: (List.range m).map (fun (k : Nat) => gen (i + 1 + (k : Int))) := by
  rw [List.range_succ_eq_map]
  simp only [List.map_cons, List.map_map, Nat.cast_zero, add_zero]
  congr 1
  apply mapCongr
  intro k _
  simp only [Function.comp_apply]
  congr 1
  push_cast
  ring

theorem cppForGo_eq_foldl {σ : Type} (body : Int → σ → σ) :
    ∀ (m : Nat) (i : Int) (s : σ),
      cppForGo body m i s
        = (List.range m).foldl (fun s (k : Nat) => body (i + (k : Int)) s) s := by
  intro m
  induction m with
  | zero => intro i s; simp [cppForGo]
  | succ m ih =>
      intro i s
      rw [cppForGo, ih, List.range_succ_eq_map]
      simp only [List.foldl_cons, List.foldl_map, Nat.cast_zero, add_zero]
      apply foldlCongr
      intro s k _
      congr 1
      push_cast
      ring

theorem cppForGo_add (f : Int → Int) :
    ∀ (m : Nat) (i : Int) (s : Int),
      cppForGo (fun c t => t + f c) m i s
        = s + ∑ k ∈ Finset.range m, f (i + (k : Int)) := by
  intro m
  induction m with
  | zero => intro i s; simp [cppForGo]
  | succ m ih =>
      intro i s
      rw [cppForGo, ih, Finset.sum_range_succ']
      have h : ∀ k : Nat, f (i + 1 + (k : Int)) = f (i + (((k + 1 : Nat)) : Int)) := by
        intro k; congr 1; push_cast; ring
      rw [Finset.sum_congr rfl (fun k _ => h k)]
      have h0 : f (i + ((0 : Nat) : Int)) = f i := by norm_num
      rw [h0]
      ring

theorem cppForGo_pair {α β : Type} (fB : Int → α → α) (gen : Int → List β) :
    ∀ (m : Nat) (i : Int) (st : α × List β),
      cppForGo (fun c st => (fB c st.1, st.2 ++ gen c)) m i st
        = (cppForGo fB m i st.1,
           st.2 ++ ((List.range m).map fun (k : Nat) => gen (i + (k : Int))).flatten) := by
  intro m
  induction m with
  | zero => intro i st; simp [cppForGo]
  | succ m ih =>
      intro i st
      rw [cppForGo, cppForGo, range_map_shift]
      show cppForGo _ m (i + 1) (fB i st.1, st.2 ++ gen i) = _
      rw [ih]
      simp [List.append_assoc]

theorem cppForGo_append {β : Type} (gen : Int → List β) :
    ∀ (m : Nat) (i : Int) (t : List β),
      cppForGo (fun c tr => tr ++ gen c) m i t
        = t ++ ((List.range m).map fun (k : Nat) => gen (i + (k : Int))).flatten := by
  intro m
  induction m with
  | zero => intro i t; simp [cppForGo]
  | succ m ih =>
      intro i t
      rw [cppForGo, range_map_shift]
      show cppForGo _ m (i + 1) (t ++ gen i) = _
      rw [ih]
      simp [List.append_assoc]

theorem flatten_map_singleton {α β : Type} (f : α → β) :
    ∀ l : List α, (l.map fun a => [f a]).flatten = l.map f := by
  intro l
  induction l with
  | nil => rfl
  | cons a l ih => simp [ih]

/-! ## The memory demo: characterization lemmas -/

theorem get?_append_length {α : Type} :
    ∀ (l : List α) (b : α), (l ++ [b]).get? l.length = some b := by
  intro l b
  induction l with
  | nil => rfl
  | cons a l ih => simp [ih]

theorem set_append_length {α : Type} :
    ∀ (l : List α) (b c : α), (l ++ [b]).set l.length c = l ++ [c] := by
  intro l b c
  induction l with
  | nil => rfl
  | cons a l ih => simp [ih]

theorem getD_append_length {α : Type} [Inhabited α] (l : List α) (b : α) :
    (l ++ [b]).getD l.length default = b := by
  rw [List.getD_eq_getElem?_getD, List.getElem?_append_right (Nat.le_refl _)]
  simp

theorem cause_leak_eq (init10 : Nat → Int) (h : MemoryExample.Heap) :
    MemoryExample.cause_leak init10 h
      = (h ++ [⟨10, fun n => if n = 0 then 1 else init10 n, false⟩],
         [MemoryExample.MEvent.alloc h.length 10,
          MemoryExample.MEvent.line (MemoryExample.OutLine.leakAddr h.length)]) := by
  unfold MemoryExample.cause_leak MemoryExample.allocArr MemoryExample.writeAt
  simp [get?_append_length, set_append_length]

theorem use_uninitialized_memory_eq (uval : Int) (init5 : Nat → Int)
    (h : MemoryExample.Heap) :
    MemoryExample.use_uninitialized_memory uval init5 h
      = (h ++ [⟨5, fun n => if n = 0 then 100 else init5 n, true⟩],
         [MemoryExample.MEvent.line
            (if uval > 0 then MemoryExample.OutLine.uninitPositive
             else MemoryExample.OutLine.uninitNotPositive),
          MemoryExample.MEvent.alloc h.length 5,
          MemoryExample.MEvent.line (MemoryExample.OutLine.indexOne (init5 1)),
          MemoryExample.MEvent.free h.length]) := by
  unfold MemoryExample.use_uninitialized_memory MemoryExample.allocArr
    MemoryExample.writeAt MemoryExample.readAt MemoryExample.freeArr
  simp [get?_append_length, set_append_length, getD_append_length]

theorem memMain_eq (env : MemoryExample.MemEnv) :
    MemoryExample.main env
      = ([⟨10, fun n => if n = 0 then 1 else env.init10 n, false⟩,
          ⟨5, fun n => if n = 0 then 100 else env.init5 n, true⟩],
         [MemoryExample.MEvent.line MemoryExample.OutLine.startBanner,
          MemoryExample.MEvent.alloc 0 10,
          MemoryExample.MEvent.line (MemoryExample.OutLine.leakAddr 0),
          MemoryExample.MEvent.line
            (if env.uval > 0 then MemoryExample.OutLine.uninitPositive
             else MemoryExample.OutLine.uninitNotPositive),
          MemoryExample.MEvent.alloc 1 5,
          MemoryExample.MEvent.line (MemoryExample.OutLine.indexOne (env.init5 1)),
          MemoryExample.MEvent.free 1,
          MemoryExample.MEvent.line MemoryExample.OutLine.finishBanner],
         0) := by
  simp [MemoryExample.main, cause_leak_eq, use_uninitialized_memory_eq]

/-! ## Claim theorems for the memory demo -/

/-- C1: every invocation of `cause_leak` makes exactly one heap allocation,
of 10 integers, writes the known value 1 to index 0, prints one console
line reporting the allocation's address and returns without releasing the
allocation; in a full program run the allocation (address 0) is still
unreleased in the final heap and no release of it ever appears in the
trace. -/
theorem cause_leak_leaks_one_allocation (init10 : Nat → Int)
    (h : MemoryExample.Heap) (env : MemoryExample.MemEnv) :
    (MemoryExample.cause_leak init10 h).1
        = h ++ [⟨10, fun n => if n = 0 then 1 else init10 n, false⟩]
    ∧ (MemoryExample.cause_leak init10 h).2
        = [MemoryExample.MEvent.alloc h.length 10,
           MemoryExample.MEvent.line (MemoryExample.OutLine.leakAddr h.length)]
    ∧ ((MemoryExample.main env).1.getD 0 default).size = 10
    ∧ ((MemoryExample.main env).1.getD 0 default).freed = false
    ∧ MemoryExample.MEvent.free 0 ∉ (MemoryExample.main env).2.1 := by
  rw [cause_leak_eq, memMain_eq]
  refine ⟨rfl, rfl, rfl, rfl, ?_⟩
  intro hmem
  simp only [List.mem_cons, List.not_mem_nil] at hmem
  rcases hmem with h | h | h | h | h | h | h | h | h <;> simp_all

/-- C2: for every value of the uninitialized scalar,
`use_uninitialized_memory` prints exactly one of the two fixed branch
messages, and exactly one line reporting an indeterminate value, namely
the uninitialized cell at index 1 of the second allocation. -/
theorem use_uninitialized_memory_branch_and_read (uval : Int)
    (init5 : Nat → Int) (h : MemoryExample.Heap) :
    ((MemoryExample.use_uninitialized_memory uval init5 h).2.filter
        MemoryExample.isBranchLine
          = [MemoryExample.MEvent.line MemoryExample.OutLine.uninitPositive]
      ∨ (MemoryExample.use_uninitialized_memory uval init5 h).2.filter
        MemoryExample.isBranchLine
          = [MemoryExample.MEvent.line MemoryExample.OutLine.uninitNotPositive])
    ∧ (MemoryExample.use_uninitialized_memory uval init5 h).2.filter
        MemoryExample.isIndexLine
          = [MemoryExample.MEvent.line (MemoryExample.OutLine.indexOne (init5 1))] := by
  rw [use_uninitialized_memory_eq]
  by_cases hpos : uval > 0
  · refine ⟨Or.inl ?_, ?_⟩ <;>
      simp [hpos, List.filter, MemoryExample.isBranchLine, MemoryExample.isIndexLine]
  · refine ⟨Or.inr ?_, ?_⟩ <;>
      simp [hpos, List.filter, MemoryExample.isBranchLine, MemoryExample.isIndexLine]

/-- C3: `use_uninitialized_memory` makes exactly one allocation, of 5
integers; index 0 holds 100, indices other than 0 keep their
indeterminate initial contents; the value at index 1 is printed; and the
allocation is released exactly once (a single release event, and the block
is marked released on return). -/
theorem use_uninitialized_memory_five_int_buffer (uval : Int)
    (init5 : Nat → Int) (h : MemoryExample.Heap) :
    (MemoryExample.use_uninitialized_memory uval init5 h).1
        = h ++ [⟨5, fun n => if n = 0 then 100 else init5 n, true⟩]
    ∧ (MemoryExample.use_uninitialized_memory uval init5 h).2
        = [MemoryExample.MEvent.line
             (if uval > 0 then MemoryExample.OutLine.uninitPositive
              else MemoryExample.OutLine.uninitNotPositive),
           MemoryExample.MEvent.alloc h.length 5,
           MemoryExample.MEvent.line (MemoryExample.OutLine.indexOne (init5 1)),
           MemoryExample.MEvent.free h.length] := by
  rw [use_uninitialized_memory_eq]
  exact ⟨rfl, rfl⟩

/-- C8: both programs return exit code 0, for every environment — in
particular, for the memory demo, for every value of the indeterminate
scalar and of the indeterminate buffer contents. -/
theorem both_programs_exit_zero :
    (∀ env : MemoryExample.MemEnv, (MemoryExample.main env).2.2 = 0)
    ∧ (∀ (F : ProfilingExample.FloatModel) (env : ProfilingExample.ProfEnv),
        (ProfilingExample.main F env).2 = 0) := by
  exact ⟨fun _ => rfl, fun _ _ => rfl⟩

/-! ## The profiling demo: characterization lemmas -/

theorem intOuterBody_eq (F : ProfilingExample.FloatModel) (i s : Int) :
    ProfilingExample.intOuterBody F i s
      = s + ∑ k ∈ Finset.range 1999, ProfilingExample.intensiveTerm F i (1 + (k : Int)) := by
  have h : ProfilingExample.intOuterBody F i s
      = cppForGo (fun c t => t + ProfilingExample.intensiveTerm F i c) 1999 1 s := rfl
  rw [h, cppForGo_add]

theorem intensive_computation_fst (F : ProfilingExample.FloatModel)
    (env : ProfilingExample.ProfEnv) (n : Int) :
    (ProfilingExample.intensive_computation F env n).1
      = ∑ i ∈ Finset.range n.toNat, ∑ k ∈ Finset.range 1999,
          ProfilingExample.intensiveTerm F (i : Int) (1 + (k : Int)) := by
  have hb : ProfilingExample.intOuterBody F
      = fun c t =>
          t + ∑ k ∈ Finset.range 1999, ProfilingExample.intensiveTerm F c (1 + (k : Int)) :=
    funext fun c => funext fun t => intOuterBody_eq F c t
  have h : (ProfilingExample.intensive_computation F env n).1
      = cppForGo (ProfilingExample.intOuterBody F) n.toNat 0 0 := by
    show cppFor 0 n (ProfilingExample.intOuterBody F) 0 = _
    rw [cppFor, sub_zero]
  rw [h, hb, cppForGo_add]
  simp

/-! ## Claim theorems for the profiling demo: the intensive tier -/

/-- C4: for `n ≥ 0`, `intensive_computation n` returns the sum over outer
index `i < n` and inner index `j = 1 + k` with `k < 1999` (so `j` runs
from 1 to 1999, exactly 1999 inner iterations) of the truncated term
`(long long)(sqrt(j * i) + 1.0001 ^ j)`; in particular it returns 0 at
`n = 0`. -/
theorem intensive_computation_returns_sum (F : ProfilingExample.FloatModel)
    (env : ProfilingExample.ProfEnv) (n : Int) (_hn : 0 ≤ n) :
    (ProfilingExample.intensive_computation F env n).1
        = ∑ i ∈ Finset.range n.toNat, ∑ k ∈ Finset.range 1999,
            ProfilingExample.intensiveTerm F (i : Int) (1 + (k : Int))
    ∧ (ProfilingExample.intensive_computation F env 0).1 = 0 := by
  refine ⟨intensive_computation_fst F env n, ?_⟩
  rw [intensive_computation_fst F env 0]
  simp

theorem intensive_computation_returns_sum_witness :
    (0 : Int) ≤ 0
    ∧ ((ProfilingExample.intensive_computation ProfilingExample.trivModel
          ProfilingExample.trivEnv 0).1
        = ∑ i ∈ Finset.range (0 : Int).toNat, ∑ k ∈ Finset.range 1999,
            ProfilingExample.intensiveTerm ProfilingExample.trivModel (i : Int) (1 + (k : Int))
      ∧ (ProfilingExample.intensive_computation ProfilingExample.trivModel
          ProfilingExample.trivEnv 0).1 = 0) :=
  ⟨le_refl 0,
   intensive_computation_returns_sum ProfilingExample.trivModel ProfilingExample.trivEnv 0
     (le_refl 0)⟩

/-- C10: for `n ≤ 0` (including negative `n`), `intensive_computation n`
returns 0: both loops run zero times, so the accumulator is returned
unchanged. -/
theorem intensive_computation_nonpos_zero (F : ProfilingExample.FloatModel)
    (env : ProfilingExample.ProfEnv) (n : Int) (hn : n ≤ 0) :
    (ProfilingExample.intensive_computation F env n).1 = 0 := by
  rw [intensive_computation_fst, Int.toNat_of_nonpos hn]
  simp

theorem intensive_computation_nonpos_zero_witness :
    (-1 : Int) ≤ 0
    ∧ (ProfilingExample.intensive_computation ProfilingExample.trivModel
        ProfilingExample.trivEnv (-1)).1 = 0 :=
  ⟨by decide,
   intensive_computation_nonpos_zero ProfilingExample.trivModel ProfilingExample.trivEnv (-1)
     (by decide)⟩

/-- C7: the returned values are pure functions of the arguments — two
`intensive_computation` calls with equal `n` return equal sums even under
different environments (so the sleep, whose actual behaviour is the
environment's, cannot affect the result), and two `moderate_work` calls
with equal `(base, repetitions)` return equal totals. -/
theorem tier_results_deterministic :
    (∀ (F : ProfilingExample.FloatModel) (env env' : ProfilingExample.ProfEnv) (n n' : Int),
        n = n' →
        (ProfilingExample.intensive_computation F env n).1
          = (ProfilingExample.intensive_computation F env' n').1)
    ∧ (∀ (F : ProfilingExample.FloatModel) (b r b' r' : Int),
        b = b' → r = r' →
        (ProfilingExample.moderate_work F b r).1
          = (ProfilingExample.moderate_work F b' r').1) := by
  constructor
  · intro F env env' n n' h
    subst h
    rfl
  · intro F b r b' r' h1 h2
    subst h1
    subst h2
    rfl

theorem modInner_pair (F : ProfilingExample.FloatModel) (base : Int) (v : F.D)
    (t : List ProfilingExample.PEvent) :
    cppFor 0 100 (ProfilingExample.modInnerBody F base) (v, t)
      = (cppFor 0 100 (ProfilingExample.modInnerVal F base) v,
         t ++ ProfilingExample.modTrace100 base) := by
  have hb : ProfilingExample.modInnerBody F base
      = fun c st =>
          (ProfilingExample.modInnerVal F base c st.1,
           st.2 ++ [ProfilingExample.PEvent.logCall (c + base + 1)]) := rfl
  show cppForGo (ProfilingExample.modInnerBody F base) 100 0 (v, t) = _
  rw [hb,
    cppForGo_pair (ProfilingExample.modInnerVal F base)
      (fun c => [ProfilingExample.PEvent.logCall (c + base + 1)]),
    flatten_map_singleton]
  show (_, _) = ((_ : F.D), _)
  rw [Prod.mk.injEq]
  refine ⟨rfl, ?_⟩
  simp [ProfilingExample.modTrace100]

theorem modOuterBody_pair (F : ProfilingExample.FloatModel) (base i : Int)
    (st : F.D × List ProfilingExample.PEvent) :
    ProfilingExample.modOuterBody F base i st
      = (ProfilingExample.modOuterVal F base i st.1,
         st.2 ++ ProfilingExample.modTrace100 base) := by
  rw [ProfilingExample.modOuterBody, modInner_pair]
  rfl

theorem moderate_work_eq (F : ProfilingExample.FloatModel) (base reps : Int) :
    ProfilingExample.moderate_work F base reps
      = (cppForGo (ProfilingExample.modOuterVal F base) reps.toNat 0 F.zero,
         ((List.range reps.toNat).map fun _ => ProfilingExample.modTrace100 base).flatten) := by
  have hb : ProfilingExample.modOuterBody F base
      = fun c st =>
          (ProfilingExample.modOuterVal F base c st.1,
           st.2 ++ ProfilingExample.modTrace100 base) :=
    funext fun c => funext fun st => modOuterBody_pair F base c st
  show cppForGo (ProfilingExample.modOuterBody F base) (reps - 0).toNat 0 (F.zero, []) = _
  rw [sub_zero, hb,
    cppForGo_pair (ProfilingExample.modOuterVal F base)
      (fun _ => ProfilingExample.modTrace100 base)]
  rfl

theorem modOuterVal_foldl (F : ProfilingExample.FloatModel) (base i : Int) (v : F.D) :
    ProfilingExample.modOuterVal F base i v
      = (List.range 100).foldl
          (fun t (k : Nat) => F.add t (F.logD (F.ofInt ((k : Int) + base + 1))))
          (F.add v (F.mul (F.sinD (F.ofInt (base + i))) (F.cosD (F.ofInt (base - i))))) := by
  have h : ProfilingExample.modOuterVal F base i v
      = cppForGo (ProfilingExample.modInnerVal F base) 100 0
          (F.add v (F.mul (F.sinD (F.ofInt (base + i))) (F.cosD (F.ofInt (base - i))))) := rfl
  rw [h, cppForGo_eq_foldl]
  apply foldlCongr
  intro t k _
  simp [ProfilingExample.modInnerVal]

theorem moderate_value_eq (F : ProfilingExample.FloatModel) (base : Int) (m : Nat) :
    cppForGo (ProfilingExample.modOuterVal F base) m 0 F.zero
      = ProfilingExample.moderate_total F base m := by
  rw [cppForGo_eq_foldl, ProfilingExample.moderate_total]
  apply foldlCongr
  intro s k _
  rw [modOuterVal_foldl]
  simp

/-- C5: `moderate_work(base, repetitions)` returns the floating-point
total built by, for each iteration `i`, adding `sin(base+i) * cos(base-i)`
and then adding `log(k+base+1)` for `k` in `0..99` into the same total
(the spec-side `moderate_total`); in particular `moderate_work(base, 0)`
returns the double zero (and an empty trace). -/
theorem moderate_work_matches_total (F : ProfilingExample.FloatModel)
    (base repetitions : Int) :
    (ProfilingExample.moderate_work F base repetitions).1
        = ProfilingExample.moderate_total F base repetitions.toNat
    ∧ ProfilingExample.moderate_work F base 0 = (F.zero, []) := by
  constructor
  · rw [moderate_work_eq]
    exact moderate_value_eq F base repetitions.toNat
  · rfl

theorem cppFor_append {β : Type} (gen : Int → List β) (stop : Int) (t : List β) :
    cppFor 0 stop (fun c tr => tr ++ gen c) t
      = t ++ ((List.range stop.toNat).map fun (k : Nat) => gen (k : Int)).flatten := by
  rw [cppFor, sub_zero, cppForGo_append]
  congr 1
  congr 1
  apply mapCongr
  intro k _
  congr 1
  omega

theorem flatten_map_nil {α β : Type} (l : List α) :
    (l.map fun _ => ([] : List β)).flatten = [] := by
  induction l with
  | nil => rfl
  | cons a l ih => simp [ih]

theorem modTrace100_filter_eq_nil (p : ProfilingExample.PEvent → Bool)
    (hp : ∀ a : Int, p (ProfilingExample.PEvent.logCall a) = false) (b : Int) :
    (ProfilingExample.modTrace100 b).filter p = [] := by
  rw [List.filter_eq_nil_iff]
  intro e he
  rcases List.mem_map.mp he with ⟨k, _, hk⟩
  rw [← hk]
  simp [hp]

theorem modSeg_trace_filter_eq_nil (p : ProfilingExample.PEvent → Bool)
    (hp : ∀ a : Int, p (ProfilingExample.PEvent.logCall a) = false) (b : Int) :
    (((List.range 100).map fun _ => ProfilingExample.modTrace100 b).flatten).filter p = [] := by
  rw [List.filter_flatten, List.map_map]
  have h : ((List.range 100).map fun _ => ProfilingExample.modTrace100 b).map
        (List.filter p) = (List.range 100).map fun _ => ([] : List ProfilingExample.PEvent) := by
    rw [List.map_map]
    apply mapCongr
    intro k _
    simp only [Function.comp_apply]
    exact modTrace100_filter_eq_nil p hp b
  rw [List.map_map] at h
  rw [h, flatten_map_nil]

theorem run_simulation_eq (F : ProfilingExample.FloatModel)
    (env : ProfilingExample.ProfEnv) :
    ProfilingExample.run_simulation F env
      = [ProfilingExample.PEvent.startIntensive, ProfilingExample.PEvent.callIntensive 200,
         ProfilingExample.PEvent.finishIntensive
           (ProfilingExample.intensive_computation F env 200).1,
         ProfilingExample.PEvent.startModerate]
        ++ ((List.range 50).map fun (i : Nat) =>
              ProfilingExample.modSeg ((i : Int) * 10)).flatten
        ++ [ProfilingExample.PEvent.finishModerate, ProfilingExample.PEvent.startSimple]
        ++ ((List.range 1000).map fun (i : Nat) =>
              [ProfilingExample.PEvent.callSimple (i : Int)]).flatten
        ++ [ProfilingExample.PEvent.finishSimple] := by
  have hic2 : (ProfilingExample.intensive_computation F env 200).2 = [] := by
    show (if (200 : Int) < 10 then
        [ProfilingExample.PEvent.sleep (50 * 200) (env.sleepDur (50 * 200))]
      else []) = []
    rw [if_neg (by decide)]
  have hbM : (fun (i : Int) (tr : List ProfilingExample.PEvent) =>
        tr ++ (ProfilingExample.PEvent.callModerate (i * 10) 100
                :: (ProfilingExample.moderate_work F (i * 10) 100).2))
      = fun c tr => tr ++ ProfilingExample.modSeg (c * 10) := by
    funext c tr
    rw [moderate_work_eq]
    simp [ProfilingExample.modSeg]
  have hbS : (fun (i : Int) (tr : List ProfilingExample.PEvent) =>
        tr ++ (ProfilingExample.PEvent.callSimple i :: ProfilingExample.simple_task F i))
      = fun c tr => tr ++ [ProfilingExample.PEvent.callSimple c] := by
    funext c tr
    simp [ProfilingExample.simple_task]
  show (cppFor 0 1000 _
          ((cppFor 0 50 _
              ([ProfilingExample.PEvent.startIntensive,
                ProfilingExample.PEvent.callIntensive 200]
                ++ (ProfilingExample.intensive_computation F env 200).2
                ++ [ProfilingExample.PEvent.finishIntensive
                      (ProfilingExample.intensive_computation F env 200).1,
                    ProfilingExample.PEvent.startModerate]))
            ++ [ProfilingExample.PEvent.finishModerate,
                ProfilingExample.PEvent.startSimple]))
        ++ [ProfilingExample.PEvent.finishSimple] = _
  rw [hic2, hbM, hbS, cppFor_append, cppFor_append]
  rfl

theorem modSeg_filter_call (b : Int) :
    (ProfilingExample.modSeg b).filter ProfilingExample.isCall
      = [ProfilingExample.PEvent.callModerate b 100] := by
  rw [ProfilingExample.modSeg, List.filter_cons,
    modSeg_trace_filter_eq_nil ProfilingExample.isCall (fun a => rfl) b]
  rfl

theorem modSeg_filter_print (b : Int) :
    (ProfilingExample.modSeg b).filter ProfilingExample.isPrint = [] := by
  rw [ProfilingExample.modSeg, List.filter_cons,
    modSeg_trace_filter_eq_nil ProfilingExample.isPrint (fun a => rfl) b]
  rfl

theorem modFlat_filter_call :
    ((((List.range 50).map fun (i : Nat) =>
        ProfilingExample.modSeg ((i : Int) * 10)).flatten).filter ProfilingExample.isCall)
      = (List.range 50).map fun (i : Nat) =>
          ProfilingExample.PEvent.callModerate ((i : Int) * 10) 100 := by
  rw [List.filter_flatten, List.map_map]
  have h : (List.range 50).map
        (List.filter ProfilingExample.isCall ∘ fun (i : Nat) =>
          ProfilingExample.modSeg ((i : Int) * 10))
      = (List.range 50).map fun (i : Nat) =>
          [ProfilingExample.PEvent.callModerate ((i : Int) * 10) 100] := by
    apply mapCongr
    intro i _
    simp only [Function.comp_apply]
    exact modSeg_filter_call _
  rw [h, flatten_map_singleton (fun (i : Nat) =>
    ProfilingExample.PEvent.callModerate ((i : Int) * 10) 100)]

theorem modFlat_filter_print :
    ((((List.range 50).map fun (i : Nat) =>
        ProfilingExample.modSeg ((i : Int) * 10)).flatten).filter ProfilingExample.isPrint)
      = [] := by
  rw [List.filter_flatten, List.map_map]
  have h : (List.range 50).map
        (List.filter ProfilingExample.isPrint ∘ fun (i : Nat) =>
          ProfilingExample.modSeg ((i : Int) * 10))
      = (List.range 50).map fun _ => ([] : List ProfilingExample.PEvent) := by
    apply mapCongr
    intro i _
    simp only [Function.comp_apply]
    exact modSeg_filter_print _
  rw [h, flatten_map_nil]

theorem simpFlat_filter_call :
    ((((List.range 1000).map fun (i : Nat) =>
        [ProfilingExample.PEvent.callSimple (i : Int)]).flatten).filter
          ProfilingExample.isCall)
      = (List.range 1000).map fun (i : Nat) =>
          ProfilingExample.PEvent.callSimple (i : Int) := by
  rw [List.filter_flatten, List.map_map]
  have h : (List.range 1000).map
        (List.filter ProfilingExample.isCall ∘ fun (i : Nat) =>
          [ProfilingExample.PEvent.callSimple (i : Int)])
      = (List.range 1000).map fun (i : Nat) =>
          [ProfilingExample.PEvent.callSimple (i : Int)] := by
    apply mapCongr
    intro i _
    rfl
  rw [h, flatten_map_singleton (fun (i : Nat) =>
    ProfilingExample.PEvent.callSimple (i : Int))]

theorem simpFlat_filter_print :
    ((((List.range 1000).map fun (i : Nat) =>
        [ProfilingExample.PEvent.callSimple (i : Int)]).flatten).filter
          ProfilingExample.isPrint)
      = [] := by
  rw [List.filter_flatten, List.map_map]
  have h : (List.range 1000).map
        (List.filter ProfilingExample.isPrint ∘ fun (i : Nat) =>
          [ProfilingExample.PEvent.callSimple (i : Int)])
      = (List.range 1000).map fun _ => ([] : List ProfilingExample.PEvent) := by
    apply mapCongr
    intro i _
    rfl
  rw [h, flatten_map_nil]

/-- C6: in a `run_simulation` run, the calls are: `intensive_computation`
exactly once with argument 200, then `moderate_work` exactly 50 times
with bases `10 * i` for `i = 0..49` and fixed repetition count 100, then
`simple_task` exactly 1000 times with ids `0..999`, in that order; and
the only console output are the six tier-boundary banners, in order. -/
theorem run_simulation_orchestration (F : ProfilingExample.FloatModel)
    (env : ProfilingExample.ProfEnv) :
    (ProfilingExample.run_simulation F env).filter ProfilingExample.isCall
        = ProfilingExample.PEvent.callIntensive 200
            :: (((List.range 50).map fun (i : Nat) =>
                  ProfilingExample.PEvent.callModerate (10 * (i : Int)) 100)
                ++ (List.range 1000).map fun (i : Nat) =>
                    ProfilingExample.PEvent.callSimple (i : Int))
    ∧ (ProfilingExample.run_simulation F env).filter ProfilingExample.isPrint
        = [ProfilingExample.PEvent.startIntensive,
           ProfilingExample.PEvent.finishIntensive
             (ProfilingExample.intensive_computation F env 200).1,
           ProfilingExample.PEvent.startModerate,
           ProfilingExample.PEvent.finishModerate,
           ProfilingExample.PEvent.startSimple,
           ProfilingExample.PEvent.finishSimple] := by
  constructor
  · rw [run_simulation_eq]
    simp only [List.filter_append]
    rw [modFlat_filter_call, simpFlat_filter_call]
    have hcomm : (List.range 50).map (fun (i : Nat) =>
          ProfilingExample.PEvent.callModerate ((i : Int) * 10) 100)
        = (List.range 50).map fun (i : Nat) =>
            ProfilingExample.PEvent.callModerate (10 * (i : Int)) 100 :=
      mapCongr _ _ _ (fun i _ => by rw [mul_comm])
    rw [hcomm]
    show [ProfilingExample.PEvent.callIntensive 200] ++ _ ++ [] ++ _ ++ [] = _
    simp only [List.append_nil, List.cons_append, List.nil_append, List.append_assoc]
  · rw [run_simulation_eq]
    simp only [List.filter_append]
    rw [modFlat_filter_print, simpFlat_filter_print]
    show [ProfilingExample.PEvent.startIntensive,
          ProfilingExample.PEvent.finishIntensive
            (ProfilingExample.intensive_computation F env 200).1,
          ProfilingExample.PEvent.startModerate]
        ++ [] ++ [ProfilingExample.PEvent.finishModerate,
                  ProfilingExample.PEvent.startSimple]
        ++ [] ++ [ProfilingExample.PEvent.finishSimple] = _
    simp only [List.append_nil, List.cons_append, List.nil_append, List.append_assoc]

theorem logCall_mem_moderate (F : ProfilingExample.FloatModel) (base reps : Int)
    (h1 : 1 ≤ reps) :
    ProfilingExample.PEvent.logCall (base + 1)
      ∈ (ProfilingExample.moderate_work F base reps).2 := by
  simp only [moderate_work_eq]
  refine List.mem_flatten.mpr ⟨ProfilingExample.modTrace100 base, ?_, ?_⟩
  · exact List.mem_map_of_mem _ (List.mem_range.mpr (show 0 < reps.toNat by omega))
  · rw [ProfilingExample.modTrace100]
    exact List.mem_map.mpr ⟨0, List.mem_range.mpr (by norm_num), by norm_num⟩

theorem logCall_one_mem_runSim (F : ProfilingExample.FloatModel)
    (env : ProfilingExample.ProfEnv) :
    ProfilingExample.PEvent.logCall 1 ∈ ProfilingExample.run_simulation F env := by
  rw [run_simulation_eq]
  have hmem : ProfilingExample.PEvent.logCall 1
      ∈ ProfilingExample.modSeg (((0 : Nat) : Int) * 10) := by
    rw [ProfilingExample.modSeg]
    refine List.mem_cons_of_mem _ ?_
    refine List.mem_flatten.mpr
      ⟨ProfilingExample.modTrace100 (((0 : Nat) : Int) * 10), ?_, ?_⟩
    · exact List.mem_map_of_mem _ (List.mem_range.mpr (show (0:Nat) < 100 by norm_num))
    · rw [ProfilingExample.modTrace100]
      exact List.mem_map.mpr ⟨0, List.mem_range.mpr (by norm_num), by norm_num⟩
  apply List.mem_append_left
  apply List.mem_append_left
  apply List.mem_append_left
  apply List.mem_append_right
  exact List.mem_flatten.mpr
    ⟨_, List.mem_map_of_mem _ (List.mem_range.mpr (show (0:Nat) < 50 by norm_num)), hmem⟩

/-- C9: every argument passed to `log` inside `moderate_work` equals
`k + base + 1` for a loop index `k < 100`, hence is at least 1 when
`base ≥ 0`; and in `run_simulation` every `moderate_work` call uses base
`10 * i ≥ 0`, so every `log` argument occurring there is at least 1 —
`log` is never applied to zero or a negative argument. -/
theorem log_arguments_positive (F : ProfilingExample.FloatModel)
    (env : ProfilingExample.ProfEnv) (base reps a b : Int)
    (hbase : 0 ≤ base) (_hreps : 0 ≤ reps)
    (ha : ProfilingExample.PEvent.logCall a
            ∈ (ProfilingExample.moderate_work F base reps).2)
    (hb : ProfilingExample.PEvent.logCall b
            ∈ ProfilingExample.run_simulation F env) :
    ((∃ k : Nat, k < 100 ∧ a = (k : Int) + base + 1) ∧ 1 ≤ a) ∧ 1 ≤ b := by
  have hmod : ∀ (c d : Int), 0 ≤ d →
      ProfilingExample.PEvent.logCall c ∈ ProfilingExample.modTrace100 d → 1 ≤ c := by
    intro c d hd hc
    rw [ProfilingExample.modTrace100] at hc
    rcases List.mem_map.mp hc with ⟨k, _, hk⟩
    have : (k : Int) + d + 1 = c := by
      injection hk
    omega
  constructor
  · simp only [moderate_work_eq] at ha
    rcases List.mem_flatten.mp ha with ⟨l, hl, hal⟩
    rcases List.mem_map.mp hl with ⟨i, _, hli⟩
    rw [← hli, ProfilingExample.modTrace100] at hal
    rcases List.mem_map.mp hal with ⟨k, hk, hke⟩
    have hka : (k : Int) + base + 1 = a := by
      injection hke
    refine ⟨⟨k, List.mem_range.mp hk, hka.symm⟩, by omega⟩
  · rw [run_simulation_eq] at hb
    rcases List.mem_append.mp hb with hb | hb
    rotate_left
    · simp at hb
    rcases List.mem_append.mp hb with hb | hb
    rotate_left
    · rcases List.mem_flatten.mp hb with ⟨l, hl, hbl⟩
      rcases List.mem_map.mp hl with ⟨i, _, hli⟩
      rw [← hli] at hbl
      simp at hbl
    rcases List.mem_append.mp hb with hb | hb
    rotate_left
    · simp at hb
    rcases List.mem_append.mp hb with hb | hb
    · simp at hb
    · rcases List.mem_flatten.mp hb with ⟨l, hl, hbl⟩
      rcases List.mem_map.mp hl with ⟨i, _, hli⟩
      rw [← hli, ProfilingExample.modSeg] at hbl
      rcases List.mem_cons.mp hbl with hbl | hbl
      · simp at hbl
      · rcases List.mem_flatten.mp hbl with ⟨l2, hl2, hbl2⟩
        rcases List.mem_map.mp hl2 with ⟨j, _, hlj⟩
        rw [← hlj] at hbl2
        exact hmod b ((i : Int) * 10) (by positivity) hbl2

theorem log_arguments_positive_witness :
    ((∃ k : Nat, k < 100 ∧ (1 : Int) = (k : Int) + 0 + 1) ∧ 1 ≤ (1 : Int))
    ∧ 1 ≤ (1 : Int) :=
  log_arguments_positive ProfilingExample.trivModel ProfilingExample.trivEnv 0 1 1 1
    (by norm_num) (by norm_num)
    (by
      have h := logCall_mem_moderate ProfilingExample.trivModel 0 1 (by norm_num)
      simpa using h)
    (logCall_one_mem_runSim ProfilingExample.trivModel ProfilingExample.trivEnv)

theorem tier_results_deterministic_witness :
    (3 : Int) = 3
    ∧ (ProfilingExample.intensive_computation ProfilingExample.trivModel
          ProfilingExample.trivEnv 3).1
        = (ProfilingExample.intensive_computation ProfilingExample.trivModel
            ProfilingExample.altEnv 3).1
    ∧ (ProfilingExample.moderate_work ProfilingExample.trivModel 1 2).1
        = (ProfilingExample.moderate_work ProfilingExample.trivModel 1 2).1 :=
  ⟨rfl,
   tier_results_deterministic.1 ProfilingExample.trivModel ProfilingExample.trivEnv
     ProfilingExample.altEnv 3 3 rfl,
   tier_results_deterministic.2 ProfilingExample.trivModel 1 2 1 2 rfl rfl⟩
